import Mathlib

/-!
Verification of the control core of the YieldRay/mouse-clicker repository.

The Rust sources are embedded shallowly:
* `src/config/settings.rs`  → `AppSettings`, `AppSettings.validate`
* `src/core/clicker.rs`     → `ClickerManager` (state machine, spawned loop)
* `src/core/hotkey.rs`      → `HotkeyManager`
* `src/ui/main_window.rs`   → the hotkey debounce of `MainWindow::check_hotkey`

Machine integers (`u64`, `u32`) are modelled as `Nat`; every operation the
code performs on them stays far below the wrap-around bound, so no modular
arithmetic is needed.  `Result<T, String>` is modelled as `Except String T`.
Shared atomic cells (`Arc<AtomicBool>`, `Arc<AtomicU32>`) are modelled by a
heap of numbered cells so that cell *identity* (which `Arc` allocation a
handle points to) is observable.  Time (`Instant`) is modelled as a natural
number of milliseconds supplied by the caller.
-/

deriving instance DecidableEq for Except

namespace MouseClicker

/-- `MouseButton` from `src/config/settings.rs` (lines 10-24). -/
inductive MouseButton where
  | Left
  | Right
  | LeftLongPress
  | RightLongPress
  | ScrollUp
  | ScrollDown
deriving DecidableEq, Repr

/-- `FunctionKey` from `src/config/settings.rs` (lines 47-61). -/
inductive FunctionKey where
  | F1 | F2 | F3 | F4 | F5 | F6 | F7 | F8 | F9 | F10 | F11 | F12
deriving DecidableEq, Repr

/-- `AppSettings` from `src/config/settings.rs` (lines 96-106).
`interval_ms : u64` and the optional `click_count : u32` become `Nat`. -/
structure AppSettings where
  interval_ms : Nat
  mouse_button : MouseButton
  click_count : Option Nat
  hotkey : FunctionKey
deriving DecidableEq, Repr

/-- `impl Default for AppSettings` (`src/config/settings.rs` lines 108-117). -/
def AppSettings.default : AppSettings :=
  { interval_ms := 1000
    mouse_button := MouseButton.Left
    click_count := none
    hotkey := FunctionKey.F2 }

/-- `AppSettings::validate` from `src/config/settings.rs` (lines 121-140),
with the original error strings. -/
def AppSettings.validate (s : AppSettings) : Except String Unit :=
  if s.interval_ms = 0 then Except.error "点击间隔不能为0"
  else if s.interval_ms > 60000 then Except.error "点击间隔不能超过60秒"
  else
    match s.click_count with
    | some count =>
      if count = 0 then Except.error "点击次数不能为0"
      else if count > 1000000 then Except.error "点击次数不能超过100万次"
      else Except.ok ()
    | none => Except.ok ()

/-! ## The repeating-action loop

`ClickerManager::start` (`src/core/clicker.rs` lines 88-143) spawns a thread
whose body is a while loop over the shared `is_running` flag and `click_count`
counter.  One iteration of that loop (i) exits if the flag is already false,
(ii) stores `false` and exits if the configured target has been reached,
(iii) otherwise performs one mouse click whose outcome decides whether the
counter is incremented (success), left alone (permission-classified error),
or the loop is terminated (any other error).

The loop's view of the shared cells is the pair `LoopCells`; the outcome of
each `MouseController::click` call is an `Except String Unit` supplied from
outside (the actuator is an external capability).  `loopExec` runs the loop
against a finite list of click outcomes, one per iteration, stopping early on
any of the loop's own exit paths; if the list is exhausted first, the loop is
still running and the current cells are returned. -/

/-- The loop thread's view of the shared `is_running` / `click_count` cells. -/
structure LoopCells where
  run_flag : Bool
  click_count : Nat
deriving DecidableEq, Repr

/-- Whether `pat` is a prefix of the character list `s` (helper for the
substring test below). -/
def listHasPrefixW : List Char → List Char → Bool
  | [], _ => true
  | _ :: _, [] => false
  | a :: as, b :: bs => a == b && listHasPrefixW as bs

/-- Whether `pat` occurs as a contiguous run inside `s` (helper for the
substring test below): it is a prefix of some suffix of `s`. -/
def hasSubstrChars : List Char → List Char → Bool
  | pat, [] => pat.isEmpty
  | pat, s@(_ :: rest) => listHasPrefixW pat s || hasSubstrChars pat rest

/-- Rust's `str::contains(pat)` (substring test), on the character lists of
the two strings. -/
def hasSubstr (s pat : String) : Bool := hasSubstrChars pat.data s.data

/-- Whether a click error is classified as a permission (transient) problem
(`src/core/clicker.rs` lines 126-129). -/
def isPermissionError (e : String) : Bool :=
  hasSubstr e "权限" || hasSubstr e "permission" || hasSubstr e "accessibility"

/-- The target check of `src/core/clicker.rs` lines 105-110:
`if let Some(target) = target_count { if current_count >= target { ... } }`. -/
def targetReached (target : Option Nat) (count : Nat) : Bool :=
  match target with
  | some t => count ≥ t
  | none => false

/-- The while loop of `src/core/clicker.rs` lines 101-142, run against a
finite list of click outcomes (one outcome consumed per iteration that
actually reaches the `mouse.click` call). -/
def loopExec (target : Option Nat) : List (Except String Unit) → LoopCells → LoopCells
  | [], c => c
  | r :: rs, c =>
    if !c.run_flag then c
    else if targetReached target c.click_count then
      { run_flag := false, click_count := c.click_count }
    else
      match r with
      | Except.ok _ => loopExec target rs { c with click_count := c.click_count + 1 }
      | Except.error e =>
        if isPermissionError e then loopExec target rs c
        else { run_flag := false, click_count := c.click_count }

/-- A click outcome that the loop survives without stopping: a success, or an
error classified as a permission problem. -/
def okOrTransient : Except String Unit → Bool
  | Except.ok _ => true
  | Except.error e => isPermissionError e

/-- Whether a click outcome is a success. -/
def isOk : Except String Unit → Bool
  | Except.ok _ => true
  | Except.error _ => false

/-! ## Hotkey manager

`HotkeyManager` from `src/core/hotkey.rs`.  The OS-level registration state
of the external `GlobalHotKeyManager` capability is modelled explicitly as
the list `registered` of keys currently registered with the system, and the
outcome of the external `register` call is supplied by a predicate
`regOk : FunctionKey → Bool` (whether the OS accepts the registration).
`unregister`'s result is discarded by the code (`let _ = ...`), so it is
modelled as always removing the key. -/

/-- `HotkeyManager` (`src/core/hotkey.rs` lines 12-15), with the OS
registration state made explicit. -/
structure HotkeyManager where
  registered : List FunctionKey
  current_hotkey : Option FunctionKey
deriving DecidableEq, Repr

/-- `HotkeyManager::new` (`src/core/hotkey.rs` lines 19-27): no key
registered yet. -/
def HotkeyManager.new : HotkeyManager :=
  { registered := [], current_hotkey := none }

/-- `HotkeyManager::set_hotkey` (`src/core/hotkey.rs` lines 30-47): first
unregister the previous hotkey (ignoring failures), then register the new
one; on registration failure return the error — note `current_hotkey` is
then left at its old value even though that key was just unregistered. -/
def HotkeyManager.set_hotkey (m : HotkeyManager) (regOk : FunctionKey → Bool)
    (key : FunctionKey) : HotkeyManager × Except String Unit :=
  let m1 :=
    match m.current_hotkey with
    | some old => { m with registered := m.registered.erase old }
    | none => m
  if regOk key then
    ({ m1 with registered := key :: m1.registered, current_hotkey := some key },
      Except.ok ())
  else
    (m1, Except.error "注册热键失败")

/-! ## Clicker manager

`ClickerManager` from `src/core/clicker.rs`.  The two `Arc` allocations made
in `ClickerManager::new` (`Arc<AtomicBool>`, `Arc<AtomicU32>`) are modelled
as numbered heap cells: `heap_flags` / `heap_counts` map a cell id to its
current value, `next_cell` is the allocator, and the manager stores the ids
of its `is_running` and `click_count` cells.  A spawned loop thread is
recorded as a `LoopHandle` carrying the cell ids and the configuration
snapshot it was given (`src/core/clicker.rs` lines 81-85); that a handle and
the manager can name the *same* cell is exactly what makes sharing between
sessions observable.  `Instant::now()` is a millisecond timestamp supplied
by the caller. -/

/-- The data captured by the closure spawned in `ClickerManager::start`
(`src/core/clicker.rs` lines 81-88): clones of the two shared cells (their
ids) plus the configuration snapshot. -/
structure LoopHandle where
  flagCell : Nat
  countCell : Nat
  interval : Nat
  target : Option Nat
  button : MouseButton
deriving DecidableEq, Repr

/-- `ClickerManager` (`src/core/clicker.rs` lines 47-53) together with the
heap backing its shared cells. -/
structure ClickerManager where
  settings : AppSettings
  hotkey_manager : HotkeyManager
  is_running_cell : Nat
  click_count_cell : Nat
  start_time : Option Nat
  heap_flags : Nat → Bool
  heap_counts : Nat → Nat
  next_cell : Nat

/-- `ClickerManager::new` (`src/core/clicker.rs` lines 57-69): create the
hotkey manager, register the configured hotkey (propagating failure), and
allocate the two shared cells with initial values `false` / `0`. -/
def ClickerManager.new (regOk : FunctionKey → Bool) (settings : AppSettings) :
    Except String ClickerManager :=
  let p := HotkeyManager.new.set_hotkey regOk settings.hotkey
  match p.2 with
  | Except.error e => Except.error e
  | Except.ok _ =>
    Except.ok
      { settings := settings
        hotkey_manager := p.1
        is_running_cell := 0
        click_count_cell := 1
        start_time := none
        heap_flags := fun _ => false
        heap_counts := fun _ => 0
        next_cell := 2 }

/-- A manager to fall back to when a construction result is known to be
`ok`; only used to extract from `ClickerManager.new` at concrete inputs. -/
def fallbackManager : ClickerManager :=
  { settings := AppSettings.default
    hotkey_manager := HotkeyManager.new
    is_running_cell := 0
    click_count_cell := 1
    start_time := none
    heap_flags := fun _ => false
    heap_counts := fun _ => 0
    next_cell := 2 }

/-- Extract the manager from a construction result. -/
def getManager : Except String ClickerManager → ClickerManager
  | Except.ok m => m
  | Except.error _ => fallbackManager

/-- The result of one `ClickerManager::start` call: the updated manager, the
loop thread spawned by this call (if any), and the returned `Result`. -/
structure StartResult where
  manager : ClickerManager
  spawned : Option LoopHandle
  result : Except String Unit

/-- `ClickerManager::start` (`src/core/clicker.rs` lines 72-147): if already
running, return `Ok` at once (no writes, nothing spawned); otherwise store
`true` / `0` into the manager's existing run-flag and counter cells, record
the start timestamp, and spawn the loop with clones of those same cells and
a snapshot of the current settings.  The function allocates no new cells. -/
def ClickerManager.start (m : ClickerManager) (now : Nat) : StartResult :=
  if m.heap_flags m.is_running_cell then
    { manager := m, spawned := none, result := Except.ok () }
  else
    { manager :=
        { m with
          heap_flags := fun i => if i = m.is_running_cell then true else m.heap_flags i
          heap_counts := fun i => if i = m.click_count_cell then 0 else m.heap_counts i
          start_time := some now }
      spawned := some
        { flagCell := m.is_running_cell
          countCell := m.click_count_cell
          interval := m.settings.interval_ms
          target := m.settings.click_count
          button := m.settings.mouse_button }
      result := Except.ok () }

/-- `ClickerManager::stop` (`src/core/clicker.rs` lines 150-154): store
`false` into the run-flag cell and clear the start timestamp. -/
def ClickerManager.stop (m : ClickerManager) : ClickerManager :=
  { m with
    heap_flags := fun i => if i = m.is_running_cell then false else m.heap_flags i
    start_time := none }

/-- Run some iterations of a spawned loop thread against the heap: read the
cells the handle points to, execute the loop body on the given click
outcomes, and write the resulting flag/count back to those same cells.  The
loop thread touches nothing else of the manager — in particular it cannot
touch `start_time`, which lives only in the `ClickerManager` struct
(`src/core/clicker.rs` lines 88-143). -/
def ClickerManager.loopAdvance (m : ClickerManager) (h : LoopHandle)
    (rs : List (Except String Unit)) : ClickerManager :=
  let c0 : LoopCells := { run_flag := m.heap_flags h.flagCell
                          click_count := m.heap_counts h.countCell }
  let c1 := loopExec h.target rs c0
  { m with
    heap_flags := fun i => if i = h.flagCell then c1.run_flag else m.heap_flags i
    heap_counts := fun i => if i = h.countCell then c1.click_count else m.heap_counts i }

/-- `ClickerState` (`src/core/clicker.rs` lines 15-18). -/
inductive ClickerState where
  | Stopped
  | Running
deriving DecidableEq, Repr

/-- `ClickerStatus` (`src/core/clicker.rs` lines 28-33). -/
structure ClickerStatus where
  state : ClickerState
  click_count : Nat
  target_count : Option Nat
  runtime_seconds : Nat
deriving DecidableEq, Repr

/-- `ClickerManager::get_status` (`src/core/clicker.rs` lines 174-192).
`start.elapsed().as_secs()` becomes `(now - t) / 1000` on millisecond
timestamps. -/
def ClickerManager.get_status (m : ClickerManager) (now : Nat) : ClickerStatus :=
  { state := if m.heap_flags m.is_running_cell then ClickerState.Running
             else ClickerState.Stopped
    click_count := m.heap_counts m.click_count_cell
    target_count := m.settings.click_count
    runtime_seconds :=
      match m.start_time with
      | some t => (now - t) / 1000
      | none => 0 }

/-- `ClickerManager::update_settings` (`src/core/clicker.rs` lines 162-171):
if the hotkey changed, re-register it, returning early (with the hotkey
manager's state already mutated) on failure; then commit the new settings
— no validation is performed. -/
def ClickerManager.update_settings (m : ClickerManager) (regOk : FunctionKey → Bool)
    (new_settings : AppSettings) : ClickerManager × Except String Unit :=
  if m.settings.hotkey ≠ new_settings.hotkey then
    let p := m.hotkey_manager.set_hotkey regOk new_settings.hotkey
    match p.2 with
    | Except.error e => ({ m with hotkey_manager := p.1 }, Except.error e)
    | Except.ok _ =>
      ({ m with hotkey_manager := p.1, settings := new_settings }, Except.ok ())
  else
    ({ m with settings := new_settings }, Except.ok ())

/-! ## Hotkey debounce

`MainWindow::check_hotkey` (`src/ui/main_window.rs` lines 100-120) and
`HotkeyManager::check_hotkey_pressed` (`src/core/hotkey.rs` lines 50-56).
A polled raw event is `Option HotKeyState` (`none` = no event pending);
`last` is `ui_state.last_hotkey_time`, `now` the current `Instant`, both in
milliseconds. -/

/-- `HotKeyState` of the `global_hotkey` crate, as used by
`check_hotkey_pressed`. -/
inductive HotKeyState where
  | Pressed
  | Released
deriving DecidableEq, Repr

/-- `HotkeyManager::check_hotkey_pressed` (`src/core/hotkey.rs` lines
50-56): true iff an event is pending and its state is `Pressed`. -/
def check_hotkey_pressed : Option HotKeyState → Bool
  | some HotKeyState.Pressed => true
  | some HotKeyState.Released => false
  | none => false

/-- The body of `MainWindow::check_hotkey` (`src/ui/main_window.rs` lines
100-120): if a pressed event is pending, accept it only when more than
500 ms have passed since the last accepted event (always accept the first);
an accepted event updates the debounce timestamp and fires `toggle()`
(returned as the Boolean), a rejected one changes nothing. -/
def checkHotkeyDebounce (ev : Option HotKeyState) (last : Option Nat) (now : Nat) :
    Bool × Option Nat :=
  if check_hotkey_pressed ev then
    let should_trigger :=
      match last with
      | some last_time => decide (now - last_time > 500)
      | none => true
    if should_trigger then (true, some now) else (false, last)
  else (false, last)

/-- Feed a timed sequence of raw poll results through `check_hotkey`,
counting how many `toggle()` calls fire. -/
def countToggles : Option Nat → List (Nat × Option HotKeyState) → Nat
  | _, [] => 0
  | last, (t, ev) :: rest =>
    let p := checkHotkeyDebounce ev last t
    (if p.1 then 1 else 0) + countToggles p.2 rest

/-! ## Concrete scenarios used by the counterexamples and witnesses -/

/-- A configuration that `validate` rejects (interval 0), with the default
hotkey F2. -/
def cfgInvalid : AppSettings :=
  { interval_ms := 0
    mouse_button := MouseButton.Left
    click_count := none
    hotkey := FunctionKey.F2 }

/-- The default configuration with the hotkey changed to F3. -/
def cfgF3 : AppSettings :=
  { AppSettings.default with hotkey := FunctionKey.F3 }

/-- The default configuration with a repeat target of 1. -/
def cfgTarget1 : AppSettings :=
  { AppSettings.default with interval_ms := 10, click_count := some 1 }

/-- An OS that accepts every hotkey registration. -/
def regAlways : FunctionKey → Bool := fun _ => true

/-- An OS that accepts only F2 (so registering F3 fails). -/
def regOnlyF2 : FunctionKey → Bool := fun k => decide (k = FunctionKey.F2)

/-- A freshly constructed manager with the default settings (hotkey F2
registered). -/
def mgrDefault : ClickerManager :=
  getManager (ClickerManager.new regAlways AppSettings.default)

/-- A freshly constructed manager with `cfgTarget1`. -/
def mgrTarget1 : ClickerManager :=
  getManager (ClickerManager.new regAlways cfgTarget1)

/-- `mgrTarget1` after `start()` at time 0. -/
def startTarget1 : StartResult := mgrTarget1.start 0

/-- `startTarget1` after the spawned loop has run two iterations with a
successful actuator: the first click reaches the target 1, the second
iteration's target check stores `false` into the run flag and exits. -/
def mgrTarget1Done : ClickerManager :=
  match startTarget1.spawned with
  | some h => startTarget1.manager.loopAdvance h [Except.ok (), Except.ok ()]
  | none => startTarget1.manager

/-- `mgrDefault` after a first `start()`, a `stop()`, and a second
`start()` (a fast stop/start cycle). -/
def restartCycle : StartResult := ((mgrDefault.start 0).manager.stop).start 100

/-- A manager that is currently Running. -/
def mgrRunning : ClickerManager := (mgrDefault.start 0).manager

/-! # Theorems -/

/-- Once the run flag is false the loop body never runs again: `loopExec`
leaves such cells untouched whatever outcomes remain. -/
theorem loopExec_stopped (target : Option Nat) (rs : List (Except String Unit)) (n : Nat) :
    loopExec target rs { run_flag := false, click_count := n } =
      { run_flag := false, click_count := n } := by
  cases rs with
  | nil => rfl
  | cons r rs => simp [loopExec]

/-- Executing the loop over a concatenation is executing it over the pieces
in order (early exits leave the flag false, and `loopExec` fixes such cells). -/
theorem loopExec_append (target : Option Nat) (as bs : List (Except String Unit))
    (c : LoopCells) :
    loopExec target (as ++ bs) c = loopExec target bs (loopExec target as c) := by
  induction as generalizing c with
  | nil => rfl
  | cons r rs ih =>
    by_cases hflag : c.run_flag
    · by_cases htgt : targetReached target c.click_count
      · simp [loopExec, hflag, htgt, loopExec_stopped]
      · cases r with
        | ok u => simp [loopExec, hflag, htgt, ih]
        | error e =>
          by_cases hperm : isPermissionError e
          · simp [loopExec, hflag, htgt, hperm, ih]
          · simp [loopExec, hflag, htgt, hperm, loopExec_stopped]
    · have : c = { run_flag := false, click_count := c.click_count } := by
        cases c; simp_all
      rw [this]
      simp [loopExec, loopExec_stopped]

/-- C5. `AppSettings::validate` succeeds iff `interval_ms` lies in
(0, 60000] and `click_count` is absent or lies in [1, 1000000]; any
violation yields an error. -/
theorem validate_iff (s : AppSettings) :
    s.validate = Except.ok () ↔
      (0 < s.interval_ms ∧ s.interval_ms ≤ 60000 ∧
        ∀ c, s.click_count = some c → 1 ≤ c ∧ c ≤ 1000000) := by
  rcases s with ⟨i, b, cc, hk⟩
  cases cc <;> simp only [AppSettings.validate] <;> split_ifs <;> simp_all <;> omega

/-- Witness for `validate_iff` at the default configuration. -/
theorem validate_iff_witness : AppSettings.default.validate = Except.ok () :=
  (validate_iff AppSettings.default).mpr (by decide)

/-- C6. Loop error handling: with no repeat target, running the loop over
any interleaving of successes and permission-classified (transient)
failures keeps it running and raises the counter by exactly the number of
successes; and an outcome that is neither a success nor permission-classified
makes the loop clear the run flag and exit at once, leaving the counter
untouched. -/
theorem loop_counts_successes :
    (∀ (rs : List (Except String Unit)) (n : Nat),
        rs.all okOrTransient = true →
        loopExec none rs { run_flag := true, click_count := n } =
          { run_flag := true, click_count := n + rs.countP isOk }) ∧
    (∀ (e : String) (rs : List (Except String Unit)) (n : Nat),
        isPermissionError e = false →
        loopExec none (Except.error e :: rs) { run_flag := true, click_count := n } =
          { run_flag := false, click_count := n }) := by
  constructor
  · intro rs
    induction rs with
    | nil => intro n _; simp [loopExec]
    | cons r rs ih =>
      intro n hall
      simp only [List.all_cons, Bool.and_eq_true] at hall
      cases r with
      | ok u =>
        have := ih (n + 1) hall.2
        simp [loopExec, targetReached, this, List.countP_cons, isOk]
        omega
      | error e =>
        have hperm : isPermissionError e = true := hall.1
        have := ih n hall.2
        simp [loopExec, targetReached, hperm, this, List.countP_cons, isOk]
  · intro e rs n hperm
    simp [loopExec, targetReached, hperm]

/-- Witness for `loop_counts_successes`: two successes around one
permission failure yield exactly two counted clicks, and a fatal error
stops the loop immediately. -/
theorem loop_counts_successes_witness :
    loopExec none
        [Except.ok (), Except.error "模拟permission问题", Except.ok ()]
        { run_flag := true, click_count := 0 } =
      { run_flag := true, click_count := 2 } ∧
    loopExec none [Except.error "fatal", Except.ok ()]
        { run_flag := true, click_count := 0 } =
      { run_flag := false, click_count := 0 } := by
  refine ⟨?_, ?_⟩
  · have := loop_counts_successes.1
      [Except.ok (), Except.error "模拟permission问题", Except.ok ()] 0 (by decide)
    simpa using this
  · exact loop_counts_successes.2 "fatal" [Except.ok ()] 0 (by decide)

/-- Helper for C7: starting below the target with a flawless actuator, the
loop runs until the counter equals the target and then clears the run flag. -/
theorem loopExec_ok_run (k : Nat) :
    ∀ (n T : Nat), n + k = T →
      loopExec (some T) (List.replicate (k + 1) (Except.ok ()))
          { run_flag := true, click_count := n } =
        { run_flag := false, click_count := T } := by
  induction k with
  | zero =>
    intro n T h
    subst h
    simp [loopExec, targetReached]
  | succ k ih =>
    intro n T h
    have hlt : n < T := by omega
    have hstep :
        loopExec (some T) (Except.ok () :: List.replicate (k + 1) (Except.ok ()))
            { run_flag := true, click_count := n } =
          loopExec (some T) (List.replicate (k + 1) (Except.ok ()))
            { run_flag := true, click_count := n + 1 } := by
      simp [loopExec, targetReached, Nat.not_le.mpr hlt]
    rw [List.replicate_succ, hstep]
    exact ih (n + 1) T (by omega)

/-- C7. With a finite repeat target `T` and an actuator that always
succeeds, the loop terminates: after `T + 1` iterations (and under any
further iterations) the run flag is cleared and the counter is exactly `T`
— the target check compares the counter against `T` before each click and
exits once it is reached. -/
theorem loop_reaches_target (T k : Nat) :
    loopExec (some T) (List.replicate (T + 1 + k) (Except.ok ()))
        { run_flag := true, click_count := 0 } =
      { run_flag := false, click_count := T } := by
  have hsplit : List.replicate (T + 1 + k) ((Except.ok () : Except String Unit)) =
      List.replicate (T + 1) (Except.ok ()) ++ List.replicate k (Except.ok ()) :=
    List.replicate_add (T + 1) k _
  rw [hsplit, loopExec_append, loopExec_ok_run T 0 T (by omega), loopExec_stopped]

/-- Helper for C10: the loop never pushes the counter past the target it
checks before every click. -/
theorem loopExec_count_le (T : Nat) (rs : List (Except String Unit)) :
    ∀ c : LoopCells, c.click_count ≤ T →
      (loopExec (some T) rs c).click_count ≤ T := by
  induction rs with
  | nil => intro c h; exact h
  | cons r rs ih =>
    intro c h
    by_cases hflag : c.run_flag
    · by_cases htgt : targetReached (some T) c.click_count
      · simp [loopExec, hflag, htgt]; exact h
      · have hlt : c.click_count < T := by
          simp [targetReached] at htgt; omega
        cases r with
        | ok u => simp [loopExec, hflag, htgt]; exact ih _ (by simp; omega)
        | error e =>
          by_cases hperm : isPermissionError e
          · simp [loopExec, hflag, htgt, hperm]; exact ih _ h
          · simp [loopExec, hflag, htgt, hperm]; exact h
    · simp at hflag
      have : c = { run_flag := false, click_count := c.click_count } := by
        cases c; simp_all
      rw [this, loopExec_stopped]
      exact h

/-- C10. Invariant of a session with a finite repeat target `T`: starting
from the counter value `0` that `start()` stores, the counter never exceeds
`T` — after any number of loop iterations with any click outcomes (i.e. at
every point of the execution, since the state at any point is `loopExec`
over the prefix of outcomes consumed so far), the counter is at most `T`. -/
theorem click_count_le_target (T : Nat) (rs : List (Except String Unit)) :
    (loopExec (some T) rs { run_flag := true, click_count := 0 }).click_count ≤ T :=
  loopExec_count_le T rs _ (Nat.zero_le T)

/-- C1 counterexample. `update_settings` performs no validation: updating
the default configuration to one with `interval_ms = 0` (hotkey unchanged)
returns `Ok` and commits the invalid configuration, even though `validate`
rejects it. -/
theorem update_settings_commits_invalid_cex :
    (mgrDefault.update_settings regAlways cfgInvalid).2 = Except.ok () ∧
    (mgrDefault.update_settings regAlways cfgInvalid).1.settings = cfgInvalid ∧
    cfgInvalid.validate = Except.error "点击间隔不能为0" := by decide

/-- C1 (amended). `ClickerManager::update_settings` performs no validation:
when the trigger binding is unchanged it always commits `new_settings` and
returns `Ok` (even for configurations `validate` rejects); when the binding
changed, the update is rejected with the stored settings unchanged exactly
when re-registration fails, and committed when it succeeds. -/
theorem update_settings_spec (regOk : FunctionKey → Bool) (m : ClickerManager)
    (ns : AppSettings) :
    (m.settings.hotkey = ns.hotkey →
      m.update_settings regOk ns = ({ m with settings := ns }, Except.ok ())) ∧
    (m.settings.hotkey ≠ ns.hotkey → regOk ns.hotkey = false →
      (m.update_settings regOk ns).1.settings = m.settings ∧
      ∃ e, (m.update_settings regOk ns).2 = Except.error e) ∧
    (m.settings.hotkey ≠ ns.hotkey → regOk ns.hotkey = true →
      (m.update_settings regOk ns).1.settings = ns ∧
      (m.update_settings regOk ns).2 = Except.ok ()) := by
  refine ⟨?_, ?_, ?_⟩
  · intro h
    simp [ClickerManager.update_settings, h]
  · intro hne hreg
    simp [ClickerManager.update_settings, hne, HotkeyManager.set_hotkey, hreg]
  · intro hne hreg
    simp [ClickerManager.update_settings, hne, HotkeyManager.set_hotkey, hreg]

/-- Witness for `update_settings_spec`: the unchanged-hotkey branch at the
invalid configuration, and the failed-registration branch at `cfgF3`. -/
theorem update_settings_spec_witness :
    (mgrDefault.settings.hotkey = cfgInvalid.hotkey ∧
      mgrDefault.update_settings regAlways cfgInvalid =
        ({ mgrDefault with settings := cfgInvalid }, Except.ok ())) ∧
    (mgrDefault.settings.hotkey ≠ cfgF3.hotkey ∧ regOnlyF2 cfgF3.hotkey = false ∧
      (mgrDefault.update_settings regOnlyF2 cfgF3).1.settings = mgrDefault.settings ∧
      ∃ e, (mgrDefault.update_settings regOnlyF2 cfgF3).2 = Except.error e) :=
  ⟨⟨by decide, (update_settings_spec regAlways mgrDefault cfgInvalid).1 (by decide)⟩,
   ⟨by decide, by decide,
     (update_settings_spec regOnlyF2 mgrDefault cfgF3).2.1 (by decide) (by decide)⟩⟩

/-- C2 counterexample. A fast stop/start cycle shares the cells between the
sessions: both the first session's loop handle and the loop handle spawned
by the second `start()` point at heap cells 0 (run flag) and 1 (counter) —
the very cells allocated once in `ClickerManager::new` — so the pair handed
to the new session is shared with the previous one, not fresh. -/
theorem start_reuses_cells_cex :
    ((mgrDefault.start 0).spawned.map LoopHandle.flagCell = some 0) ∧
    ((mgrDefault.start 0).spawned.map LoopHandle.countCell = some 1) ∧
    (restartCycle.spawned.map LoopHandle.flagCell = some 0) ∧
    (restartCycle.spawned.map LoopHandle.countCell = some 1) ∧
    mgrDefault.is_running_cell = 0 ∧ mgrDefault.click_count_cell = 1 := by decide

/-- C2 (amended). A Stopped-to-Running `start()` allocates nothing: it
resets the manager's own run-flag and counter cells (created once in
`ClickerManager::new`) to `true` / `0` and hands the spawned loop a handle
to those *same* cells, so a still-winding-down loop thread from an earlier
session of the same manager shares them with the new session. -/
theorem start_reuses_manager_cells (m : ClickerManager) (now : Nat)
    (h : m.heap_flags m.is_running_cell = false) :
    (m.start now).spawned = some
        { flagCell := m.is_running_cell
          countCell := m.click_count_cell
          interval := m.settings.interval_ms
          target := m.settings.click_count
          button := m.settings.mouse_button } ∧
    (m.start now).manager.is_running_cell = m.is_running_cell ∧
    (m.start now).manager.click_count_cell = m.click_count_cell ∧
    (m.start now).manager.next_cell = m.next_cell ∧
    (m.start now).manager.heap_flags m.is_running_cell = true ∧
    (m.start now).manager.heap_counts m.click_count_cell = 0 := by
  simp [ClickerManager.start, h]

/-- Witness for `start_reuses_manager_cells` at the freshly constructed
default manager. -/
theorem start_reuses_manager_cells_witness :
    mgrDefault.heap_flags mgrDefault.is_running_cell = false ∧
    ((mgrDefault.start 0).spawned = some
        { flagCell := mgrDefault.is_running_cell
          countCell := mgrDefault.click_count_cell
          interval := mgrDefault.settings.interval_ms
          target := mgrDefault.settings.click_count
          button := mgrDefault.settings.mouse_button } ∧
      (mgrDefault.start 0).manager.is_running_cell = mgrDefault.is_running_cell ∧
      (mgrDefault.start 0).manager.click_count_cell = mgrDefault.click_count_cell ∧
      (mgrDefault.start 0).manager.next_cell = mgrDefault.next_cell ∧
      (mgrDefault.start 0).manager.heap_flags mgrDefault.is_running_cell = true ∧
      (mgrDefault.start 0).manager.heap_counts mgrDefault.click_count_cell = 0) :=
  ⟨by decide, start_reuses_manager_cells mgrDefault 0 (by decide)⟩

/-- C3 counterexample. After `start()` at time 0 with repeat target 1 and a
loop that reaches the target (a loop-driven transition into Stopped),
`status()` at time 5000 reports state Stopped — yet `started_at` is still
set and `runtime_seconds` is 5, not 0. -/
theorem loop_stop_leaves_started_at_cex :
    (mgrTarget1Done.get_status 5000).state = ClickerState.Stopped ∧
    (mgrTarget1Done.get_status 5000).click_count = 1 ∧
    mgrTarget1Done.start_time = some 0 ∧
    (mgrTarget1Done.get_status 5000).runtime_seconds = 5 := by decide

/-- C3 (amended). `started_at` is set by every Stopped-to-Running `start()`
and cleared only by `stop()`: the loop thread has no access to it, so when
the loop itself ends the session (repeat target reached or fatal actuator
error) `started_at` stays set and `runtime_seconds` keeps counting even
though `status().state` is Stopped. -/
theorem started_at_lifecycle :
    (∀ (m : ClickerManager) (now : Nat),
        m.heap_flags m.is_running_cell = false →
        (m.start now).manager.start_time = some now) ∧
    (∀ m : ClickerManager, m.stop.start_time = none) ∧
    (∀ (m : ClickerManager) (h : LoopHandle) (rs : List (Except String Unit)),
        (m.loopAdvance h rs).start_time = m.start_time) := by
  refine ⟨?_, ?_, ?_⟩ <;> intros <;>
    simp_all [ClickerManager.start, ClickerManager.stop, ClickerManager.loopAdvance]

/-- Witness for `started_at_lifecycle` at concrete managers. -/
theorem started_at_lifecycle_witness :
    (mgrDefault.heap_flags mgrDefault.is_running_cell = false ∧
      (mgrDefault.start 0).manager.start_time = some 0) ∧
    mgrDefault.stop.start_time = none ∧
    (startTarget1.manager.loopAdvance
        { flagCell := 0, countCell := 1, interval := 10,
          target := some 1, button := MouseButton.Left }
        [Except.ok ()]).start_time = startTarget1.manager.start_time :=
  ⟨⟨by decide, started_at_lifecycle.1 mgrDefault 0 (by decide)⟩,
   started_at_lifecycle.2.1 mgrDefault,
   started_at_lifecycle.2.2 _ _ _⟩

/-- C4 counterexample. With F2 bound and registered, changing the hotkey to
F3 on an OS that rejects the F3 registration leaves the stored settings
unchanged (still F2) and returns an error — but F2, unregistered *before*
the failed registration attempt, is no longer registered with the OS, so
the previous binding is not active any more. -/
theorem hotkey_rollback_cex :
    mgrDefault.hotkey_manager.registered = [FunctionKey.F2] ∧
    (mgrDefault.update_settings regOnlyF2 cfgF3).2 = Except.error "注册热键失败" ∧
    (mgrDefault.update_settings regOnlyF2 cfgF3).1.settings.hotkey = FunctionKey.F2 ∧
    (mgrDefault.update_settings regOnlyF2 cfgF3).1.hotkey_manager.registered = [] := by
  decide

/-- C4 (amended). When an `update_settings` call changes the trigger
binding and the new registration fails, the update is rejected and the
stored configuration is unchanged — but because `set_hotkey` unregisters
the old hotkey *before* attempting the new registration, the previous
binding does not remain registered: afterwards no key is registered at all
(while `current_hotkey` still records the stale old key). -/
theorem update_settings_hotkey_failure (regOk : FunctionKey → Bool)
    (m : ClickerManager) (ns : AppSettings) (k : FunctionKey)
    (hcur : m.hotkey_manager.current_hotkey = some k)
    (hreg1 : m.hotkey_manager.registered = [k])
    (hne : m.settings.hotkey ≠ ns.hotkey)
    (hfail : regOk ns.hotkey = false) :
    (m.update_settings regOk ns).1.settings = m.settings ∧
    (m.update_settings regOk ns).2 = Except.error "注册热键失败" ∧
    (m.update_settings regOk ns).1.hotkey_manager.registered = [] ∧
    (m.update_settings regOk ns).1.hotkey_manager.current_hotkey = some k := by
  simp [ClickerManager.update_settings, hne, HotkeyManager.set_hotkey, hcur, hreg1, hfail]

/-- Witness for `update_settings_hotkey_failure` at the default manager and
a rejected F3 registration. -/
theorem update_settings_hotkey_failure_witness :
    mgrDefault.hotkey_manager.current_hotkey = some FunctionKey.F2 ∧
    mgrDefault.hotkey_manager.registered = [FunctionKey.F2] ∧
    mgrDefault.settings.hotkey ≠ cfgF3.hotkey ∧
    regOnlyF2 cfgF3.hotkey = false ∧
    ((mgrDefault.update_settings regOnlyF2 cfgF3).1.settings = mgrDefault.settings ∧
      (mgrDefault.update_settings regOnlyF2 cfgF3).2 = Except.error "注册热键失败" ∧
      (mgrDefault.update_settings regOnlyF2 cfgF3).1.hotkey_manager.registered = [] ∧
      (mgrDefault.update_settings regOnlyF2 cfgF3).1.hotkey_manager.current_hotkey =
        some FunctionKey.F2) :=
  ⟨by decide, by decide, by decide, by decide,
   update_settings_hotkey_failure regOnlyF2 mgrDefault cfgF3 FunctionKey.F2
     (by decide) (by decide) (by decide) (by decide)⟩

/-- C8. `start()` is idempotent while Running: a second call with no
intervening `stop()` returns `Ok`, leaves the whole manager (counter cell,
run-flag cell, `started_at`) unchanged, and spawns no second loop thread. -/
theorem start_idempotent_running (m : ClickerManager) (now : Nat)
    (h : m.heap_flags m.is_running_cell = true) :
    m.start now = { manager := m, spawned := none, result := Except.ok () } := by
  simp [ClickerManager.start, h]

/-- Witness for `start_idempotent_running` at a Running manager. -/
theorem start_idempotent_running_witness :
    mgrRunning.heap_flags mgrRunning.is_running_cell = true ∧
    mgrRunning.start 5 =
      { manager := mgrRunning, spawned := none, result := Except.ok () } :=
  ⟨by decide, start_idempotent_running mgrRunning 5 (by decide)⟩

/-- C9. The debounce of `MainWindow::check_hotkey`: a raw poll result fires
`toggle()` iff it is a pressed event arriving strictly more than 500 ms
after the previously accepted event (a first event always fires); a fired
event updates the debounce timestamp, a dropped one leaves it unchanged.
Consequently two pressed events 100 ms apart fire exactly one toggle and
two 600 ms apart fire two. -/
theorem hotkey_debounce_spec (ev : Option HotKeyState) (last : Option Nat) (now : Nat) :
    ((checkHotkeyDebounce ev last now).1 = true ↔
      (ev = some HotKeyState.Pressed ∧
        (last = none ∨ ∃ t, last = some t ∧ now - t > 500))) ∧
    ((checkHotkeyDebounce ev last now).1 = true →
      (checkHotkeyDebounce ev last now).2 = some now) ∧
    ((checkHotkeyDebounce ev last now).1 = false →
      (checkHotkeyDebounce ev last now).2 = last) ∧
    (∀ t0 : Nat, countToggles none
        [(t0, some HotKeyState.Pressed), (t0 + 100, some HotKeyState.Pressed)] = 1) ∧
    (∀ t0 : Nat, countToggles none
        [(t0, some HotKeyState.Pressed), (t0 + 600, some HotKeyState.Pressed)] = 2) := by
  have hfun : ∀ t0 k : Nat, t0 + k - t0 = k := fun t0 k => by omega
  refine ⟨?_, ?_, ?_, fun t0 => ?_, fun t0 => ?_⟩
  · cases ev with
    | none => simp [checkHotkeyDebounce, check_hotkey_pressed]
    | some st =>
      cases st with
      | Pressed =>
        cases last with
        | none => simp [checkHotkeyDebounce, check_hotkey_pressed]
        | some t =>
          by_cases hd : now - t > 500 <;>
            simp [checkHotkeyDebounce, check_hotkey_pressed, hd]
      | Released => simp [checkHotkeyDebounce, check_hotkey_pressed]
  · cases ev with
    | none => simp [checkHotkeyDebounce, check_hotkey_pressed]
    | some st =>
      cases st with
      | Pressed =>
        cases last with
        | none => simp [checkHotkeyDebounce, check_hotkey_pressed]
        | some t =>
          by_cases hd : now - t > 500 <;>
            simp [checkHotkeyDebounce, check_hotkey_pressed, hd]
      | Released => simp [checkHotkeyDebounce, check_hotkey_pressed]
  · cases ev with
    | none => simp [checkHotkeyDebounce, check_hotkey_pressed]
    | some st =>
      cases st with
      | Pressed =>
        cases last with
        | none => simp [checkHotkeyDebounce, check_hotkey_pressed]
        | some t =>
          by_cases hd : now - t > 500 <;>
            simp [checkHotkeyDebounce, check_hotkey_pressed, hd]
      | Released => simp [checkHotkeyDebounce, check_hotkey_pressed]
  · simp [countToggles, checkHotkeyDebounce, check_hotkey_pressed, hfun t0 100]
  · simp [countToggles, checkHotkeyDebounce, check_hotkey_pressed, hfun t0 600]

/-- Witness for `hotkey_debounce_spec`: an event 501 ms after the last
accepted one fires and updates the timestamp; one exactly 500 ms after is
dropped and leaves the timestamp alone. -/
theorem hotkey_debounce_spec_witness :
    ((checkHotkeyDebounce (some HotKeyState.Pressed) (some 0) 501).1 = true ∧
      (checkHotkeyDebounce (some HotKeyState.Pressed) (some 0) 501).2 = some 501) ∧
    ((checkHotkeyDebounce (some HotKeyState.Pressed) (some 0) 500).1 = false ∧
      (checkHotkeyDebounce (some HotKeyState.Pressed) (some 0) 500).2 = some 0) ∧
    countToggles none
      [(0, some HotKeyState.Pressed), (100, some HotKeyState.Pressed)] = 1 ∧
    countToggles none
      [(0, some HotKeyState.Pressed), (600, some HotKeyState.Pressed)] = 2 :=
  ⟨⟨(hotkey_debounce_spec (some HotKeyState.Pressed) (some 0) 501).1.mpr
      ⟨rfl, Or.inr ⟨0, rfl, by decide⟩⟩,
    (hotkey_debounce_spec (some HotKeyState.Pressed) (some 0) 501).2.1 (by decide)⟩,
   ⟨by decide,
    (hotkey_debounce_spec (some HotKeyState.Pressed) (some 0) 500).2.2.1 (by decide)⟩,
   by simpa using (hotkey_debounce_spec none none 0).2.2.2.1 0,
   by simpa using (hotkey_debounce_spec none none 0).2.2.2.2 0⟩

end MouseClicker
